import Mathlib

/-!
Shallow embedding of the Seal browser extension (background service worker
and popup). The background worker guards the credential store
(`chrome.storage.local` keys `authToken` / `userEmail`), routes internal
action requests, and gates an external message channel on a fixed origin
allow-list. The popup validates a dropped `.seal` envelope and computes the
authorization verdict shown on the info screen.

Stateful storage is modelled by explicit state passing over `Store`; each
`chrome.storage.local` key is an `Option String` (a key may be absent).
Network calls are modelled by passing the fetch outcome as an explicit
argument (the JS code awaits exactly one fetch per handler). JavaScript
truthiness of string and number fields is transcribed explicitly
(`undefined`, the empty string and `0` are falsy).
-/

/-- Persistent state of `chrome.storage.local` restricted to the two keys the
worker uses: `authToken` and `userEmail`. A `none` field is an absent key. -/
structure Store where
  authToken : Option String
  userEmail : Option String
deriving DecidableEq, Repr

/-- JS truthiness of an optional string field: absent and `""` are falsy. -/
def truthyStr (o : Option String) : Bool :=
  match o with
  | none => false
  | some s => s != ""

/-- JS truthiness of an optional number field: absent and `0` are falsy. -/
def truthyInt (o : Option Int) : Bool :=
  match o with
  | none => false
  | some v => v != 0

/-- JS `o || d` on an optional string: falsy left operand selects `d`. -/
def jsOr (o : Option String) (d : String) : String :=
  match o with
  | none => d
  | some s => if s == "" then d else s

/-- Transcribes `storeAuth(token, email)`:
`chrome.storage.local.set({ authToken: token, userEmail: email })`.
Both keys become present. -/
def storeAuth (token email : String) : Store :=
  ⟨some token, some email⟩

/-- Transcribes `clearAuth()`:
`chrome.storage.local.remove(['authToken', 'userEmail'])`.
Both keys become absent. -/
def clearAuth : Store :=
  ⟨none, none⟩

/-- Whether the two stored keys are paired: both present or both absent. -/
def paired (st : Store) : Prop :=
  st.authToken.isSome = st.userEmail.isSome

instance (st : Store) : Decidable (paired st) := by
  unfold paired; infer_instance

/-- Body of the `/auth/status` response as read by `checkAuth`. -/
structure AuthStatusData where
  authenticated : Bool
  email : Option String
deriving DecidableEq, Repr

/-- Outcome of the awaited `fetch` (and `response.json()`): either the
promise rejects with an error message, or a response arrives with its
`ok` flag and parsed body. -/
inductive CheckFetch where
  | throws (msg : String)
  | resp (ok : Bool) (data : AuthStatusData)
deriving DecidableEq, Repr

/-- Value the `checkAuth` function resolves with. -/
structure CheckResult where
  authenticated : Bool
  email : Option String
  error : Option String
deriving DecidableEq, Repr

/-- Transcribes the background worker function `checkAuth()`:
on a rejected fetch, catch and return `{authenticated:false, error}`;
on `!response.ok`, `clearAuth` and return `{authenticated:false}`;
if `data.authenticated && data.email`, reconcile the cached email
(`storeAuth(stored.authToken || '', data.email)` when
`stored.userEmail !== data.email`) and return `data`;
otherwise `clearAuth` and return `data`. -/
def checkAuth (outcome : CheckFetch) (st : Store) : CheckResult × Store :=
  match outcome with
  | .throws m => (⟨false, none, some m⟩, st)
  | .resp ok data =>
    if !ok then
      (⟨false, none, none⟩, clearAuth)
    else if data.authenticated && truthyStr data.email then
      let e := data.email.getD ""
      let st' := if st.userEmail ≠ some e then storeAuth (st.authToken.getD "") e else st
      (⟨data.authenticated, data.email, none⟩, st')
    else
      (⟨data.authenticated, data.email, none⟩, clearAuth)

/-- Body of the `/auth/login` response as read by `loginWithCredentials`.
Per the login route (`route.ts`), an `authenticated: true` body always
carries the user's `email` and the session `token`; failure bodies carry an
optional `error` string. -/
structure LoginData where
  authenticated : Bool
  email : String
  token : String
  error : Option String
deriving DecidableEq, Repr

/-- Outcome of the awaited login `fetch` / `response.json()`. -/
inductive LoginFetch where
  | throws (msg : String)
  | resp (ok : Bool) (data : LoginData)
deriving DecidableEq, Repr

/-- Value the `loginWithCredentials` handler resolves with. -/
structure LWCResult where
  authenticated : Bool
  email : Option String
  error : Option String
deriving DecidableEq, Repr

/-- Transcribes the internal handler `loginWithCredentials(request)`.
The third component records whether the network call was issued: the local
validation `if (!email || !password)` short-circuits before any fetch. -/
def loginWithCredentials (email password : String) (outcome : LoginFetch)
    (st : Store) : LWCResult × Store × Bool :=
  if email == "" || password == "" then
    (⟨false, none, some "Email and password are required"⟩, st, false)
  else
    match outcome with
    | .throws m => (⟨false, none, some m⟩, st, true)
    | .resp ok data =>
      if !ok || !data.authenticated then
        (⟨false, none, some (jsOr data.error "Login failed")⟩, st, true)
      else
        (⟨true, some data.email, none⟩, storeAuth data.token data.email, true)

/-- Transcribes the internal handler `logout()`: clears the store and
acknowledges with `{success:true}`. The `Bool` is the `success` flag. -/
def logout (_st : Store) : Bool × Store :=
  (true, clearAuth)

/-- Response of the awaited public-key `fetch`: its `ok` flag, HTTP status
and the `publicKey` field of the parsed body. -/
structure PKResp where
  ok : Bool
  status : Nat
  publicKey : Option String
deriving DecidableEq, Repr

/-- Outcome of the public-key fetch: a rejected promise (network failure or
a `response.json()` failure, both reach the same `catch`) or a response. -/
inductive PKFetch where
  | throws (msg : String)
  | resp (r : PKResp)
deriving DecidableEq, Repr

/-- Value `fetchPublicKey` resolves with. -/
structure PKResult where
  found : Bool
  email : String
  publicKey : Option String
  error : Option String
deriving DecidableEq, Repr

/-- Transcribes `fetchPublicKey(email)`: on `!response.ok` a 404 returns
`{found:false, email}`; any other non-success throws
`Failed to fetch key for <email>`, which the function's own catch turns
into `{found:false, email, error}`; success returns
`{found:true, email, publicKey}`. -/
def fetchPublicKey (email : String) (outcome : PKFetch) : PKResult :=
  match outcome with
  | .throws m => ⟨false, email, none, some m⟩
  | .resp r =>
    if !r.ok then
      if r.status == 404 then ⟨false, email, none, none⟩
      else ⟨false, email, none, some ("Failed to fetch key for " ++ email)⟩
    else ⟨true, email, r.publicKey, none⟩

/-- External message as received by `chrome.runtime.onMessageExternal`:
a `type` string and the optional `token` / `email` fields used by the
auth-token-handoff type. -/
structure ExtMsg where
  type : String
  token : Option String
  email : Option String
deriving DecidableEq, Repr

/-- Response sent by the external listener: `{success:true}`,
`{error: msg}` or the ping reply `{installed:true, version}`. -/
inductive ExtResp where
  | success
  | err (msg : String)
  | pong (version : String)
deriving DecidableEq, Repr

/-- The fixed origin allow-list of the external channel. -/
def allowedOrigins : List String :=
  ["https://seal.email", "http://localhost:3000"]

/-- Transcribes the `chrome.runtime.onMessageExternal` listener.
`senderOrigin` is `sender.url ? new URL(sender.url).origin : ''`; `version`
is `chrome.runtime.getManifest().version`. The origin gate runs before any
dispatch on `message.type`; the `SEAL_AUTH_TOKEN` type stores the pair only
when `token && email` (JS truthiness). -/
def onMessageExternal (version senderOrigin : String) (msg : ExtMsg)
    (st : Store) : ExtResp × Store :=
  if !(allowedOrigins.contains senderOrigin) then
    (.err "Unauthorized origin", st)
  else if msg.type == "SEAL_AUTH_TOKEN" then
    if truthyStr msg.token && truthyStr msg.email then
      (.success, storeAuth (msg.token.getD "") (msg.email.getD ""))
    else
      (.err "Missing token or email", st)
  else if msg.type == "SEAL_LOGOUT" then
    (.success, clearAuth)
  else if msg.type == "SEAL_PING" then
    (.pong version, st)
  else
    (.err "Unknown message type", st)

/-- One entry of an envelope's `recipients` list; per the file format each
entry has at least an `email` field (read unconditionally by the popup). -/
structure Recipient where
  email : String
deriving DecidableEq, Repr

/-- Optional `metadata` object of an envelope. Dates (`encryptedAt`,
`expiresAt`) travel as strings fed to `new Date(...)`. -/
structure SealMeta where
  originalName : Option String
  originalSize : Option Nat
  encryptedAt : Option String
  expiresAt : Option String
deriving DecidableEq, Repr

/-- Empty metadata object, the `{}` fallback of `sealFile.metadata || {}`. -/
def SealMeta.empty : SealMeta := ⟨none, none, none, none⟩

/-- Parsed `.seal` document. `version` is a JSON number, `fileId` and
`payload` are strings; every top-level key may be absent in a malformed
document, which the schema check probes by truthiness. -/
structure SealFile where
  version : Option Int
  fileId : Option String
  payload : Option String
  metadata : Option SealMeta
  recipients : Option (List Recipient)
deriving DecidableEq, Repr

/-- JS `String.prototype.endsWith`, evaluated on the character sequence. -/
def jsEndsWith (s suffix : String) : Bool :=
  suffix.data.isSuffixOf s.data

/-- JS `String.prototype.startsWith`, evaluated on the character sequence. -/
def jsStartsWith (s pre : String) : Bool :=
  pre.data.isPrefixOf s.data

/-- Outcome of `JSON.parse(text)`: a parsed document, a thrown
`SyntaxError`, or some other thrown error with its message. -/
inductive ParseOutcome where
  | ok (f : SealFile)
  | corruptErr
  | otherErr (msg : String)
deriving DecidableEq, Repr

/-- Input to `handleFile`: the dropped file's name, byte size, raw text and
the outcome `JSON.parse` has on that text (the parser itself is external to
this core, so its outcome on the given text is part of the input). -/
structure InputFile where
  name : String
  size : Nat
  text : String
  parse : ParseOutcome
deriving DecidableEq, Repr

/-- Result of `handleFile`: either `showError(msg)` (screen `error`) or the
accepted document handed to `displayFileInfo` together with the raw text
retained in memory (screen `info`). -/
inductive HFResult where
  | showError (msg : String)
  | showInfo (f : SealFile) (rawText : String)
deriving DecidableEq, Repr

/-- The 10 MiB size threshold `10 * 1024 * 1024` of the size guard. -/
def maxSealSize : Nat := 10 * 1024 * 1024

/-- Transcribes the popup function `handleFile(file)`: extension check,
size guard, opening-brace probe, `JSON.parse`, then the schema check
`!sealFile.version || !sealFile.fileId || !sealFile.payload`; each failing
step returns its own error message and stops. -/
def handleFile (file : InputFile) : HFResult :=
  if !(jsEndsWith file.name ".seal") then
    .showError "Please select a .seal file. This file type is not supported."
  else if file.size > maxSealSize then
    .showError "This file is too large to open in the extension. Please use seal.email/viewer instead."
  else if !(jsStartsWith file.text "\x7b") then
    .showError "This file is not a valid .seal file."
  else
    match file.parse with
    | .corruptErr => .showError "Could not read this file. It may be corrupted."
    | .otherErr m => .showError ("An unexpected error occurred: " ++ m)
    | .ok sf =>
      if !truthyInt sf.version || !truthyStr sf.fileId || !truthyStr sf.payload then
        .showError "This file is not a valid .seal file. It may be corrupted or incomplete."
      else
        .showInfo sf file.text

/-- JS `String.prototype.toLowerCase`, evaluated per character. -/
def jsToLower (s : String) : String :=
  ⟨s.data.map Char.toLower⟩

/-- What `displayFileInfo` decides for the info screen: the authorization
verdict (`isExpired`, `hasAccess`, with `accessKnown` recording whether the
access row is shown at all, i.e. whether an identity email is available)
and the resulting state of the open-in-viewer button. -/
structure InfoView where
  isExpired : Bool
  hasAccess : Bool
  accessKnown : Bool
  openDisabled : Bool
  openLabel : String
deriving DecidableEq, Repr

/-- Transcribes the decision logic of the popup function
`displayFileInfo(sealFile, fileSize)`. `parseDate` gives the time value of
`new Date(s)` (`none` for an Invalid Date, whose comparisons are all
false); `now` is the time value of `new Date()`; `userEmail` is the
popup-state identity email (`null` when not logged in). Expiration:
`if (meta.expiresAt) { isExpired = new Date(meta.expiresAt) < new Date() }`.
Access: `if (userEmail && sealFile.recipients)` then
`recipients.some(r => r.email.toLowerCase() === userEmail.toLowerCase())`;
the access row is shown iff `userEmail` is truthy. Button:
disabled with label `File has expired` when expired, else disabled with
`You are not a recipient` when `!hasAccess && userEmail`, else enabled. -/
def displayFileInfo (parseDate : String → Option Int) (now : Int)
    (sealFile : SealFile) (userEmail : Option String) : InfoView :=
  let meta := sealFile.metadata.getD SealMeta.empty
  let isExpired :=
    match meta.expiresAt with
    | none => false
    | some s =>
      if s == "" then false
      else
        match parseDate s with
        | none => false
        | some t => decide (t < now)
  let hasAccess :=
    if truthyStr userEmail && sealFile.recipients.isSome then
      (sealFile.recipients.getD []).any
        (fun r => jsToLower r.email == jsToLower (userEmail.getD ""))
    else false
  let accessKnown := truthyStr userEmail
  if isExpired then
    ⟨isExpired, hasAccess, accessKnown, true, "File has expired"⟩
  else if !hasAccess && truthyStr userEmail then
    ⟨isExpired, hasAccess, accessKnown, true, "You are not a recipient"⟩
  else
    ⟨isExpired, hasAccess, accessKnown, false, "Open in Secure Viewer"⟩

/-- C1: every external message whose sender origin is not on the two-entry
allow-list is answered with the unauthorized-origin error, for every message
(hence for every value of its `type`, including the valid ones), and the
credential store is left unchanged. -/
theorem extGate_rejects_unlisted_origin (version senderOrigin : String)
    (msg : ExtMsg) (st : Store)
    (h : allowedOrigins.contains senderOrigin = false) :
    onMessageExternal version senderOrigin msg st
      = (.err "Unauthorized origin", st) := by
  unfold onMessageExternal
  rw [h]
  rfl

/-- Witness for C1: a handoff message with valid type and both fields, sent
from an origin outside the allow-list, is rejected and the store keeps its
previous contents. -/
theorem extGate_rejects_unlisted_origin_wit :
    onMessageExternal "1.0.0" "https://evil.example"
      ⟨"SEAL_AUTH_TOKEN", some "tok", some "alice@seal.email"⟩
      ⟨some "t0", some "e0"⟩
      = (.err "Unauthorized origin", ⟨some "t0", some "e0"⟩) :=
  extGate_rejects_unlisted_origin "1.0.0" "https://evil.example"
    ⟨"SEAL_AUTH_TOKEN", some "tok", some "alice@seal.email"⟩
    ⟨some "t0", some "e0"⟩ (by decide)

/-- Counterexample to C2 as stated: in this handoff message from an
allow-listed origin both the token field and the email field are present
(the token is the empty string), yet the listener rejects the request with
the missing-field error and stores nothing, whereas the claim requires the
pair to be stored with a success response whenever both fields are
present. -/
theorem extHandoff_present_fields_cex :
    (ExtMsg.mk "SEAL_AUTH_TOKEN" (some "") (some "alice@seal.email")).token.isSome
        = true ∧
    (ExtMsg.mk "SEAL_AUTH_TOKEN" (some "") (some "alice@seal.email")).email.isSome
        = true ∧
    onMessageExternal "1.0.0" "https://seal.email"
      (ExtMsg.mk "SEAL_AUTH_TOKEN" (some "") (some "alice@seal.email")) clearAuth
      = (.err "Missing token or email", clearAuth) := by
  decide

/-- C2 (amended): for an auth-token-handoff message from an allow-listed
origin, if both the token and the email field are present and non-empty
(JS-truthy) the pair is stored via the credential store's set operation
with a success response; if either field is absent or empty, the request is
rejected with an explicit error response and the store is unchanged. -/
theorem extHandoff_truthy_fields (version senderOrigin : String)
    (msg : ExtMsg) (st : Store)
    (hor : allowedOrigins.contains senderOrigin = true)
    (hty : msg.type = "SEAL_AUTH_TOKEN") :
    (truthyStr msg.token = true → truthyStr msg.email = true →
      onMessageExternal version senderOrigin msg st
        = (.success, storeAuth (msg.token.getD "") (msg.email.getD ""))) ∧
    ((truthyStr msg.token = false ∨ truthyStr msg.email = false) →
      onMessageExternal version senderOrigin msg st
        = (.err "Missing token or email", st)) := by
  constructor
  · intro ht he
    unfold onMessageExternal
    rw [hor, hty, ht, he]
    rfl
  · intro h
    unfold onMessageExternal
    rw [hor, hty]
    rcases h with h | h <;> simp [h]

/-- Witness for C2 (amended), both directions at concrete inputs: a truthy
pair is stored with success, and an absent email is rejected with the
explicit error, store untouched. -/
theorem extHandoff_truthy_fields_wit :
    onMessageExternal "1.0.0" "https://seal.email"
      ⟨"SEAL_AUTH_TOKEN", some "tok", some "alice@seal.email"⟩ clearAuth
      = (.success, storeAuth "tok" "alice@seal.email") ∧
    onMessageExternal "1.0.0" "http://localhost:3000"
      ⟨"SEAL_AUTH_TOKEN", some "tok", none⟩ ⟨some "t0", some "e0"⟩
      = (.err "Missing token or email", ⟨some "t0", some "e0"⟩) :=
  ⟨(extHandoff_truthy_fields "1.0.0" "https://seal.email"
      ⟨"SEAL_AUTH_TOKEN", some "tok", some "alice@seal.email"⟩ clearAuth
      (by decide) rfl).1 (by decide) (by decide),
   (extHandoff_truthy_fields "1.0.0" "http://localhost:3000"
      ⟨"SEAL_AUTH_TOKEN", some "tok", none⟩ ⟨some "t0", some "e0"⟩
      (by decide) rfl).2 (Or.inr (by decide))⟩

/-- C5: for a public-key fetch with a non-success response, HTTP 404 is the
normal non-error outcome `{found:false, email}` (no error field), and every
other non-success status yields a result that reaches the caller carrying
an explicit error outcome (`found:false` with the failure message), not a
silently swallowed one. -/
theorem fetchPublicKey_status_outcomes (email : String) (r : PKResp)
    (hok : r.ok = false) :
    (r.status = 404 →
      fetchPublicKey email (.resp r) = ⟨false, email, none, none⟩) ∧
    (r.status ≠ 404 →
      fetchPublicKey email (.resp r)
        = ⟨false, email, none, some ("Failed to fetch key for " ++ email)⟩) := by
  constructor
  · intro h404
    simp [fetchPublicKey, hok, h404]
  · intro h404
    simp [fetchPublicKey, hok, h404]

/-- Witness for C5: a 404 maps to the plain not-found result, and a 500
maps to the explicit error result. -/
theorem fetchPublicKey_status_outcomes_wit :
    fetchPublicKey "a@x.com" (.resp ⟨false, 404, none⟩)
      = ⟨false, "a@x.com", none, none⟩ ∧
    fetchPublicKey "a@x.com" (.resp ⟨false, 500, none⟩)
      = ⟨false, "a@x.com", none, some "Failed to fetch key for a@x.com"⟩ :=
  ⟨(fetchPublicKey_status_outcomes "a@x.com" ⟨false, 404, none⟩ rfl).1 rfl,
   (fetchPublicKey_status_outcomes "a@x.com" ⟨false, 500, none⟩ rfl).2 (by decide)⟩

/-- C9: `loginWithCredentials` rejects a missing email or password locally
with the exact required-fields error, issuing no network call and leaving
the store unchanged; on an ok, authenticated response it stores the
returned token and email as a pair and returns `{authenticated:true,
email}`; on a thrown fetch it returns the caught message, and on a
non-success or unauthenticated response it returns the response error (or
the fallback), in every failure case as a plain `{authenticated:false,
error}` value rather than a thrown fault, with the store unchanged. -/
theorem loginWithCredentials_spec (email pw : String) (outcome : LoginFetch)
    (st : Store) :
    ((email = "" ∨ pw = "") →
      loginWithCredentials email pw outcome st
        = (⟨false, none, some "Email and password are required"⟩, st, false)) ∧
    (email ≠ "" → pw ≠ "" → ∀ ok data, outcome = .resp ok data →
      ok = true → data.authenticated = true →
      loginWithCredentials email pw outcome st
        = (⟨true, some data.email, none⟩, storeAuth data.token data.email, true)) ∧
    (email ≠ "" → pw ≠ "" → ∀ m, outcome = .throws m →
      loginWithCredentials email pw outcome st
        = (⟨false, none, some m⟩, st, true)) ∧
    (email ≠ "" → pw ≠ "" → ∀ ok data, outcome = .resp ok data →
      (ok = false ∨ data.authenticated = false) →
      loginWithCredentials email pw outcome st
        = (⟨false, none, some (jsOr data.error "Login failed")⟩, st, true)) := by
  refine ⟨?_, ?_, ?_, ?_⟩
  · intro h
    rcases h with h | h <;> simp [loginWithCredentials, h]
  · intro he hp ok data hout hok hauth
    subst hout
    simp [loginWithCredentials, he, hp, hok, hauth]
  · intro he hp m hout
    subst hout
    simp [loginWithCredentials, he, hp]
  · intro he hp ok data hout hfail
    subst hout
    rcases hfail with h | h <;> simp [loginWithCredentials, he, hp, h]

/-- Witness for C9: the end-to-end example `loginWithCredentials("", "pw")`
returns the required-fields error without touching the network or the
store, and a concrete successful response stores the returned pair. -/
theorem loginWithCredentials_spec_wit :
    loginWithCredentials "" "pw" (.throws "net down") ⟨none, none⟩
      = (⟨false, none, some "Email and password are required"⟩,
         ⟨none, none⟩, false) ∧
    loginWithCredentials "a@x.com" "pw"
      (.resp true ⟨true, "a@x.com", "tok", none⟩) ⟨none, none⟩
      = (⟨true, some "a@x.com", none⟩, storeAuth "tok" "a@x.com", true) :=
  ⟨(loginWithCredentials_spec "" "pw" (.throws "net down") ⟨none, none⟩).1
      (Or.inl rfl),
   (loginWithCredentials_spec "a@x.com" "pw"
      (.resp true ⟨true, "a@x.com", "tok", none⟩) ⟨none, none⟩).2.1
      (by decide) (by decide) true ⟨true, "a@x.com", "tok", none⟩ rfl rfl rfl⟩

/-- C6: envelope validation is staged in strict order — filename suffix,
size guard, opening-brace probe, JSON parse, schema check — each failing
stage producing its own error message independently of everything a later
stage would look at, the five stage messages pairwise distinct, and an
envelope missing any of `version`, `fileId` or `payload` yielding the
corrupted-or-incomplete error, never a success. -/
theorem handleFile_validation_order (file : InputFile) :
    (jsEndsWith file.name ".seal" = false →
      handleFile file
        = .showError "Please select a .seal file. This file type is not supported.") ∧
    (jsEndsWith file.name ".seal" = true → file.size > maxSealSize →
      handleFile file
        = .showError "This file is too large to open in the extension. Please use seal.email/viewer instead.") ∧
    (jsEndsWith file.name ".seal" = true → file.size ≤ maxSealSize →
      jsStartsWith file.text "\x7b" = false →
      handleFile file = .showError "This file is not a valid .seal file.") ∧
    (jsEndsWith file.name ".seal" = true → file.size ≤ maxSealSize →
      jsStartsWith file.text "\x7b" = true → file.parse = .corruptErr →
      handleFile file = .showError "Could not read this file. It may be corrupted.") ∧
    (∀ sf, jsEndsWith file.name ".seal" = true → file.size ≤ maxSealSize →
      jsStartsWith file.text "\x7b" = true → file.parse = .ok sf →
      (sf.version = none ∨ sf.fileId = none ∨ sf.payload = none) →
      handleFile file
        = .showError "This file is not a valid .seal file. It may be corrupted or incomplete.") ∧
    ([ "Please select a .seal file. This file type is not supported.",
       "This file is too large to open in the extension. Please use seal.email/viewer instead.",
       "This file is not a valid .seal file.",
       "Could not read this file. It may be corrupted.",
       "This file is not a valid .seal file. It may be corrupted or incomplete."
     ] : List String).Pairwise (· ≠ ·) := by
  refine ⟨?_, ?_, ?_, ?_, ?_, by decide⟩
  · intro h1
    simp [handleFile, h1]
  · intro h1 h2
    simp [handleFile, h1, h2]
  · intro h1 h2 h3
    simp [handleFile, h1, Nat.not_lt.mpr h2, h3]
  · intro h1 h2 h3 h4
    simp [handleFile, h1, Nat.not_lt.mpr h2, h3, h4]
  · intro sf h1 h2 h3 h4 hmiss
    rcases hmiss with h | h | h <;>
      simp [handleFile, h1, Nat.not_lt.mpr h2, h3, h4, truthyInt, truthyStr, h]

/-- Witness for C6: a file with the right suffix, small size, brace-opening
text, and a parsed document lacking `version` is rejected with the
corrupted-or-incomplete message. -/
theorem handleFile_validation_order_wit :
    handleFile ⟨"report.pdf.seal", 120, "\x7b\x7d",
        .ok ⟨none, some "f1", some "ct", none, none⟩⟩
      = .showError "This file is not a valid .seal file. It may be corrupted or incomplete." :=
  (handleFile_validation_order ⟨"report.pdf.seal", 120, "\x7b\x7d",
      .ok ⟨none, some "f1", some "ct", none, none⟩⟩).2.2.2.2.1
    ⟨none, some "f1", some "ct", none, none⟩
    (by decide) (by decide) (by decide) rfl (Or.inl rfl)

/-- C10: the schema check probes the three required keys by JS truthiness,
not mere presence — a present `version` equal to `0`, a present `fileId`
equal to the empty string, or a present `payload` equal to the empty string
is rejected with the corrupted-or-incomplete error. -/
theorem handleFile_schema_truthiness (file : InputFile) (sf : SealFile)
    (h1 : jsEndsWith file.name ".seal" = true) (h2 : file.size ≤ maxSealSize)
    (h3 : jsStartsWith file.text "\x7b" = true) (h4 : file.parse = .ok sf)
    (h5 : sf.version = some 0 ∨ sf.fileId = some "" ∨ sf.payload = some "") :
    handleFile file
      = .showError "This file is not a valid .seal file. It may be corrupted or incomplete." := by
  rcases h5 with h | h | h <;>
    simp [handleFile, h1, Nat.not_lt.mpr h2, h3, h4, truthyInt, truthyStr, h]

/-- Witness for C10: an envelope with `version: 0` but non-empty `fileId`
and `payload` is rejected as corrupted or incomplete. -/
theorem handleFile_schema_truthiness_wit :
    handleFile ⟨"a.seal", 42, "\x7b\x7d",
        .ok ⟨some 0, some "f1", some "ct", none, none⟩⟩
      = .showError "This file is not a valid .seal file. It may be corrupted or incomplete." :=
  handleFile_schema_truthiness
    ⟨"a.seal", 42, "\x7b\x7d", .ok ⟨some 0, some "f1", some "ct", none, none⟩⟩
    ⟨some 0, some "f1", some "ct", none, none⟩
    (by decide) (by decide) (by decide) rfl (Or.inl rfl)

/-- C3: starting from a paired store (both keys present or both absent),
every credential-store operation of the worker — the set performed by a
login or an external handoff, the clear performed by logout (internal or
external) or session invalidation, and the email reconciliation inside
`checkAuth` — leaves the persisted state paired: a token without an email,
or an email without a token, is never persisted. -/
theorem store_pairing_invariant (st : Store) (h : paired st) :
    (∀ t e, paired (storeAuth t e)) ∧
    paired clearAuth ∧
    (∀ outcome, paired (checkAuth outcome st).2) ∧
    (∀ email pw outcome, paired (loginWithCredentials email pw outcome st).2.1) ∧
    (∀ version origin msg, paired (onMessageExternal version origin msg st).2) ∧
    paired (logout st).2 := by
  refine ⟨fun t e => rfl, rfl, ?_, ?_, ?_, rfl⟩
  · intro outcome
    cases outcome with
    | throws m => exact h
    | resp ok data =>
      simp only [checkAuth]
      split
      · exact rfl
      · split
        · split
          · exact rfl
          · exact h
        · exact rfl
  · intro email pw outcome
    simp only [loginWithCredentials]
    split
    · exact h
    · cases outcome with
      | throws m => exact h
      | resp ok data =>
        simp only
        split
        · exact h
        · exact rfl
  · intro version origin msg
    simp only [onMessageExternal]
    split
    · exact h
    · split
      · split
        · exact rfl
        · exact h
      · split
        · exact rfl
        · split
          · exact h
          · exact h

/-- Witness for C3: from a concrete paired store, a checkAuth email
reconciliation leaves the store paired. -/
theorem store_pairing_invariant_wit :
    paired (checkAuth (.resp true ⟨true, some "new@x.com"⟩)
      ⟨some "tok", some "old@x.com"⟩).2 :=
  (store_pairing_invariant ⟨some "tok", some "old@x.com"⟩ (by decide)).2.2.1
    (.resp true ⟨true, some "new@x.com"⟩)

/-- Counterexample to C4 as stated: with no token stored and a cached email
absent, an authenticated response for `alice@seal.email` makes `checkAuth`
reconcile the email, but the write `storeAuth(stored.authToken || '',
data.email)` changes the token field from absent to the present empty
string — the token field after reconciliation differs from the token field
before, contradicting the claimed frame condition for a prior state with no
token stored. -/
theorem checkAuth_token_frame_cex :
    (checkAuth (.resp true ⟨true, some "alice@seal.email"⟩)
        (Store.mk none none)).2.authToken = some "" ∧
    (checkAuth (.resp true ⟨true, some "alice@seal.email"⟩)
        (Store.mk none none)).2.authToken ≠ (Store.mk none none).authToken := by
  decide

/-- C4 (amended): when `checkAuth` receives an ok, authenticated response
whose server-confirmed email differs from the locally cached one, it
refreshes the cached email to the server value; the stored token is
preserved unchanged whenever a token is present (for every present prior
token value), and when no token at all was stored the reconciliation writes
the empty-string token (a falsy value) alongside the refreshed email. -/
theorem checkAuth_email_reconcile (ok : Bool) (data : AuthStatusData)
    (st : Store) (hok : ok = true) (hauth : data.authenticated = true)
    (hmail : truthyStr data.email = true)
    (hdiff : st.userEmail ≠ data.email) :
    (checkAuth (.resp ok data) st).2.userEmail = data.email ∧
    (∀ t, st.authToken = some t →
      (checkAuth (.resp ok data) st).2.authToken = some t) ∧
    (st.authToken = none →
      (checkAuth (.resp ok data) st).2.authToken = some "") := by
  obtain ⟨s, hs⟩ : ∃ s, data.email = some s := by
    cases he : data.email with
    | none => rw [he] at hmail; simp [truthyStr] at hmail
    | some s => exact ⟨s, rfl⟩
  subst hok
  rw [hs] at hdiff hmail
  refine ⟨?_, ?_, ?_⟩
  · simp [checkAuth, storeAuth, hauth, hmail, hs, hdiff]
  · intro t ht
    simp [checkAuth, storeAuth, hauth, hmail, hs, hdiff, ht]
  · intro ht
    simp [checkAuth, storeAuth, hauth, hmail, hs, hdiff, ht]

/-- Witness for C4 (amended): a stored token `tok0` survives the email
reconciliation unchanged while the cached email is refreshed. -/
theorem checkAuth_email_reconcile_wit :
    (checkAuth (.resp true ⟨true, some "new@x.com"⟩)
        ⟨some "tok0", some "old@x.com"⟩).2.userEmail = some "new@x.com" ∧
    (checkAuth (.resp true ⟨true, some "new@x.com"⟩)
        ⟨some "tok0", some "old@x.com"⟩).2.authToken = some "tok0" :=
  ⟨(checkAuth_email_reconcile true ⟨true, some "new@x.com"⟩
      ⟨some "tok0", some "old@x.com"⟩ rfl rfl (by decide) (by decide)).1,
   (checkAuth_email_reconcile true ⟨true, some "new@x.com"⟩
      ⟨some "tok0", some "old@x.com"⟩ rfl rfl (by decide) (by decide)).2.1
     "tok0" rfl⟩

/-- Projection of the expiration flag computed by `displayFileInfo`. -/
theorem displayFileInfo_isExpired (parseDate : String → Option Int)
    (now : Int) (f : SealFile) (u : Option String) :
    (displayFileInfo parseDate now f u).isExpired =
      (match (f.metadata.getD SealMeta.empty).expiresAt with
       | none => false
       | some s =>
         if s == "" then false
         else
           match parseDate s with
           | none => false
           | some t => decide (t < now)) := by
  simp only [displayFileInfo]
  repeat' split
  all_goals rfl

/-- Projection of the access flag computed by `displayFileInfo`. -/
theorem displayFileInfo_hasAccess (parseDate : String → Option Int)
    (now : Int) (f : SealFile) (u : Option String) :
    (displayFileInfo parseDate now f u).hasAccess =
      (if truthyStr u && f.recipients.isSome then
        (f.recipients.getD []).any
          (fun r => jsToLower r.email == jsToLower (u.getD ""))
      else false) := by
  simp only [displayFileInfo]
  repeat' split
  all_goals rfl

/-- Projection of the shown-access-row flag computed by `displayFileInfo`. -/
theorem displayFileInfo_accessKnown (parseDate : String → Option Int)
    (now : Int) (f : SealFile) (u : Option String) :
    (displayFileInfo parseDate now f u).accessKnown = truthyStr u := by
  simp only [displayFileInfo]
  repeat' split
  all_goals rfl

/-- The open-in-viewer button is disabled exactly when the file is expired
or the identity is known and lacks access. -/
theorem displayFileInfo_openDisabled (parseDate : String → Option Int)
    (now : Int) (f : SealFile) (u : Option String) :
    (displayFileInfo parseDate now f u).openDisabled =
      ((displayFileInfo parseDate now f u).isExpired ||
       (!(displayFileInfo parseDate now f u).hasAccess && truthyStr u)) := by
  simp only [displayFileInfo]
  repeat' split
  all_goals simp_all

/-- On an expired file the open button carries the expired label. -/
theorem displayFileInfo_openLabel_expired (parseDate : String → Option Int)
    (now : Int) (f : SealFile) (u : Option String)
    (h : (displayFileInfo parseDate now f u).isExpired = true) :
    (displayFileInfo parseDate now f u).openLabel = "File has expired" := by
  have hbig := (displayFileInfo_isExpired parseDate now f u).symm.trans h
  simp only [displayFileInfo]
  rw [if_pos hbig]

/-- C7: for every envelope and identity, given that an Invalid Date (the
JS value of `new Date("")`) has no time value, the verdict satisfies:
`isExpired` is true iff an `expiresAt` timestamp is present in the
metadata with a time value earlier than the current time (absence means
never-expiring, and the recipients list has no influence on `isExpired`);
when an identity email is known, `accessKnown` is true and `hasAccess` is
true iff some entry of the recipients list has an email equal to the
identity's email under case-insensitive comparison; when no identity is
known, `accessKnown` is false. -/
theorem displayFileInfo_verdict (parseDate : String → Option Int)
    (now : Int) (f : SealFile) (u : Option String)
    (hpd : parseDate "" = none) :
    ((displayFileInfo parseDate now f u).isExpired = true ↔
      ∃ s t, (f.metadata.getD SealMeta.empty).expiresAt = some s ∧
        parseDate s = some t ∧ t < now) ∧
    (∀ rs, (displayFileInfo parseDate now { f with recipients := rs } u).isExpired
        = (displayFileInfo parseDate now f u).isExpired) ∧
    (truthyStr u = true →
      (displayFileInfo parseDate now f u).accessKnown = true ∧
      ((displayFileInfo parseDate now f u).hasAccess = true ↔
        ∃ r ∈ f.recipients.getD [],
          jsToLower r.email = jsToLower (u.getD ""))) ∧
    (truthyStr u = false →
      (displayFileInfo parseDate now f u).accessKnown = false) := by
  refine ⟨?_, ?_, ?_, ?_⟩
  · rw [displayFileInfo_isExpired]
    cases hexp : (f.metadata.getD SealMeta.empty).expiresAt with
    | none => simp [hexp]
    | some s =>
      by_cases hs : s = ""
      · subst hs
        simp [hpd]
      · have hs' : (s == "") = false := by simp [hs]
        cases hpds : parseDate s with
        | none => simp [hs', hpds]
        | some t => simp [hs', hpds]
  · intro rs
    rw [displayFileInfo_isExpired, displayFileInfo_isExpired]
  · intro hu
    refine ⟨(displayFileInfo_accessKnown parseDate now f u).trans hu, ?_⟩
    rw [displayFileInfo_hasAccess, hu]
    cases hrec : f.recipients with
    | none => simp [hrec]
    | some rs => simp [hrec, List.any_eq_true]
  · intro hu
    exact (displayFileInfo_accessKnown parseDate now f u).trans hu

/-- Witness for C7: with a concrete date semantics, an envelope expiring at
time 2030 viewed at time 2040 by identity `A@X.com` against recipients
`[a@x.com]` is expired, the access row is shown, and access is granted by
the case-insensitive match. -/
theorem displayFileInfo_verdict_wit :
    (displayFileInfo (fun s => if s == "2030-01-01" then some 2030 else none)
      2040 ⟨some 1, some "f1", some "ct",
            some ⟨none, none, none, some "2030-01-01"⟩, some [⟨"a@x.com"⟩]⟩
      (some "A@X.com")).isExpired = true ∧
    (displayFileInfo (fun s => if s == "2030-01-01" then some 2030 else none)
      2040 ⟨some 1, some "f1", some "ct",
            some ⟨none, none, none, some "2030-01-01"⟩, some [⟨"a@x.com"⟩]⟩
      (some "A@X.com")).accessKnown = true ∧
    (displayFileInfo (fun s => if s == "2030-01-01" then some 2030 else none)
      2040 ⟨some 1, some "f1", some "ct",
            some ⟨none, none, none, some "2030-01-01"⟩, some [⟨"a@x.com"⟩]⟩
      (some "A@X.com")).hasAccess = true :=
  ⟨(displayFileInfo_verdict (fun s => if s == "2030-01-01" then some 2030 else none)
      2040 ⟨some 1, some "f1", some "ct",
            some ⟨none, none, none, some "2030-01-01"⟩, some [⟨"a@x.com"⟩]⟩
      (some "A@X.com") (by decide)).1.mpr
      ⟨"2030-01-01", 2030, rfl, by decide, by decide⟩,
   ((displayFileInfo_verdict (fun s => if s == "2030-01-01" then some 2030 else none)
      2040 ⟨some 1, some "f1", some "ct",
            some ⟨none, none, none, some "2030-01-01"⟩, some [⟨"a@x.com"⟩]⟩
      (some "A@X.com") (by decide)).2.2.1 (by decide)).1,
   ((displayFileInfo_verdict (fun s => if s == "2030-01-01" then some 2030 else none)
      2040 ⟨some 1, some "f1", some "ct",
            some ⟨none, none, none, some "2030-01-01"⟩, some [⟨"a@x.com"⟩]⟩
      (some "A@X.com") (by decide)).2.2.1 (by decide)).2.mpr (by decide)⟩

/-- C8: the open action shown with a verdict is disabled exactly when the
file is expired or the identity is known and lacks access (so it stays
enabled in every other case, including when no identity is known), and an
expired file carries the button label `File has expired`. -/
theorem info_open_button_policy (parseDate : String → Option Int)
    (now : Int) (f : SealFile) (u : Option String) :
    ((displayFileInfo parseDate now f u).openDisabled =
      ((displayFileInfo parseDate now f u).isExpired ||
       ((displayFileInfo parseDate now f u).accessKnown &&
        !(displayFileInfo parseDate now f u).hasAccess))) ∧
    ((displayFileInfo parseDate now f u).isExpired = true →
      (displayFileInfo parseDate now f u).openLabel = "File has expired") := by
  constructor
  · rw [displayFileInfo_openDisabled, displayFileInfo_accessKnown,
      Bool.and_comm]
  · exact displayFileInfo_openLabel_expired parseDate now f u

/-- Witness for C8, the end-to-end example of the spec: an envelope with a
past `expiresAt` and recipient `u@x.com`, viewed by identity `u@x.com`, is
expired with access granted, and the open action is disabled with the
message `File has expired`. -/
theorem info_open_button_policy_wit :
    (displayFileInfo (fun s => if s == "2020-01-01" then some 2020 else none)
      2040 ⟨some 1, some "f1", some "ct",
            some ⟨none, none, none, some "2020-01-01"⟩, some [⟨"u@x.com"⟩]⟩
      (some "u@x.com")).openDisabled = true ∧
    (displayFileInfo (fun s => if s == "2020-01-01" then some 2020 else none)
      2040 ⟨some 1, some "f1", some "ct",
            some ⟨none, none, none, some "2020-01-01"⟩, some [⟨"u@x.com"⟩]⟩
      (some "u@x.com")).openLabel = "File has expired" :=
  ⟨((info_open_button_policy
      (fun s => if s == "2020-01-01" then some 2020 else none) 2040
      ⟨some 1, some "f1", some "ct",
       some ⟨none, none, none, some "2020-01-01"⟩, some [⟨"u@x.com"⟩]⟩
      (some "u@x.com")).1).trans (by decide),
   (info_open_button_policy
      (fun s => if s == "2020-01-01" then some 2020 else none) 2040
      ⟨some 1, some "f1", some "ct",
       some ⟨none, none, none, some "2020-01-01"⟩, some [⟨"u@x.com"⟩]⟩
      (some "u@x.com")).2 (by decide)⟩
